import Mathlib

/-!
# Verification of the prism-ytdlp-plugin URL resolver

Shallow embedding of `src/ytdlp_resolver.c` (POSIX branch).  External
effects (the filesystem, the environment `PATH`, and the outcomes of the
subprocess invocations performed through `run_process`) are passed in
explicitly as oracles; the functions below otherwise follow the C source
line by line.  The list of `Spawn` values returned alongside each result
records every subprocess invocation the C code would have performed, in
order.
-/

namespace Ytdlp

/-! ## String utilities (`ytdlp_resolver.c`, lines 103-138) -/

/-- C `isspace` on the default locale: space, tab, newline, vertical tab,
form feed, carriage return. -/
def c_isspace (c : Char) : Bool :=
  c == ' ' || c == '\t' || c == '\n' || c == '\x0b' || c == '\x0c' || c == '\r'

/-- C `tolower` restricted to ASCII, as applied by `str_to_lower`. -/
def c_tolower (c : Char) : Char :=
  if 'A' ≤ c && c ≤ 'Z' then Char.ofNat (c.toNat + 32) else c

/-- `str_to_lower` (line 113): lower-case every byte in place. -/
def str_to_lower (s : String) : String :=
  String.mk (s.data.map c_tolower)

/-- `str_trim` (line 120): drop leading and trailing whitespace. -/
def str_trim (s : String) : String :=
  String.mk (((s.data.dropWhile c_isspace).reverse.dropWhile c_isspace).reverse)

/-- Does `hay` start with `needle`?  (Helper for the `strstr` model.) -/
def char_starts_with : List Char → List Char → Bool
  | _, [] => true
  | [], _ :: _ => false
  | c :: cs, d :: ds => c == d && char_starts_with cs ds

/-- `strstr`-style containment on character lists. -/
def char_contains : List Char → List Char → Bool
  | [], needle => char_starts_with [] needle
  | c :: cs, needle => char_starts_with (c :: cs) needle || char_contains cs needle

/-- `str_contains` (line 136): `strstr(haystack, needle) != NULL`. -/
def str_contains (hay needle : String) : Bool :=
  char_contains hay.data needle.data

/-- C `atoi`: skip leading whitespace, optional sign, then leading digits
(0 if none).  Overflow is not modelled; the inputs in question are small. -/
def atoi_digits : List Char → Nat → Nat
  | [], acc => acc
  | c :: rest, acc =>
    if c.isDigit then atoi_digits rest (acc * 10 + (c.toNat - 48)) else acc

/-- C `atoi` on a string. -/
def atoi (s : String) : Int :=
  match s.data.dropWhile c_isspace with
  | '-' :: rest => -(atoi_digits rest 0 : Int)
  | '+' :: rest => (atoi_digits rest 0 : Int)
  | cs => (atoi_digits cs 0 : Int)

/-- `strtok`-style splitting: the maximal nonempty runs of characters on
which the delimiter predicate `p` is false.  `cur` carries the current
token reversed. -/
def split_tokens (p : Char → Bool) : List Char → List Char → List String
  | [], cur => match cur with | [] => [] | _ :: _ => [String.mk cur.reverse]
  | c :: cs, cur =>
    if p c then
      match cur with
      | [] => split_tokens p cs []
      | _ :: _ => String.mk cur.reverse :: split_tokens p cs []
    else
      split_tokens p cs (c :: cur)

/-- `strtok_r(s, "\r\n", ...)` token stream: the maximal nonempty runs of
characters that are neither `\r` nor `\n`. -/
def tokenize_lines (s : String) : List String :=
  split_tokens (fun c => c == '\r' || c == '\n') s.data []

/-! ## Data model -/

/-- `ProcessResult` (line 93): captured stdout, captured stderr, exit code.
`output = none` models a NULL `output` pointer (pipe/fork failure or
timeout, where the C code jumps to cleanup before reading). -/
structure ProcessResult where
  output : Option String
  error : Option String
  exit_code : Int
deriving Repr, DecidableEq

/-- One subprocess invocation issued through `run_process`: the command
path and the (single, space-joined) argument string the C code builds. -/
structure Spawn where
  cmd : String
  args : String
deriving Repr, DecidableEq

/-- The process-wide `g_config` (line 68).  Empty string models an unset
`char[1024]` buffer. -/
structure GConfig where
  ytdlp_path : String := ""
  install_dir : String := ""
  auto_download : Bool := true
  process_timeout_ms : Int := 30000
  download_attempted : Bool := false
deriving Repr, DecidableEq

/-- `PrismResolvedStream`, zero-initialised by `calloc`.  The `duration`
field (a C `double`, set by `atof` only in `ytdlp_probe`) is not modelled:
no claim refers to it and floating point is outside the embedding. -/
structure PrismResolvedStream where
  original_url : Option String := none
  direct_url : Option String := none
  success : Bool := false
  error : Option String := none
  is_live : Bool := false
  is_hls : Bool := false
  has_video : Bool := false
  has_audio : Bool := false
  title : Option String := none
  width : Int := 0
  height : Int := 0
  requested_quality : Int := 0
deriving Repr, DecidableEq

/-! ## Tool location (`find_ytdlp`, line 494) -/

/-- `get_platform_binary_name` (line 460), POSIX non-Apple branch. -/
def binary_name : String := "yt-dlp"

/-- `get_default_install_dir` (line 468): `$HOME/.local/bin`, else
`/tmp/prism`. -/
def default_install_dir (home : Option String) : String :=
  match home with
  | some h => h ++ "/.local/bin"
  | none => "/tmp/prism"

/-- The static well-known candidate paths (line 496), POSIX branch. -/
def system_candidates : List String :=
  ["/usr/local/bin/yt-dlp", "/usr/bin/yt-dlp", "/opt/homebrew/bin/yt-dlp"]

/-- `find_ytdlp` (line 494).  `fs` is the `file_exists` oracle and
`pathDirs` the directories of the `PATH` environment variable. -/
def find_ytdlp (fs : String → Bool) (pathDirs : List String) (home : Option String)
    (cfg : GConfig) : Option String :=
  let installPath := cfg.install_dir ++ "/" ++ binary_name
  if cfg.install_dir != "" && fs installPath then
    some installPath
  else
    let defPath := default_install_dir home ++ "/" ++ binary_name
    if fs defPath then
      some defPath
    else
      match system_candidates.find? fs with
      | some p => some p
      | none => (pathDirs.map (fun d => d ++ "/" ++ binary_name)).find? fs

/-- `prism_ytdlp_is_available` (line 691): a configured path is only
stat-checked; otherwise a successful search caches the found path. -/
def prism_ytdlp_is_available (fs : String → Bool) (pathDirs : List String)
    (home : Option String) (cfg : GConfig) : Bool × GConfig :=
  if cfg.ytdlp_path != "" then
    (fs cfg.ytdlp_path, cfg)
  else
    match find_ytdlp fs pathDirs home cfg with
    | some p => (true, { cfg with ytdlp_path := p })
    | none => (false, cfg)

/-! ## Tool installation (`prism_ytdlp_download`, POSIX branch, line 638) -/

/-- `YTDLP_GITHUB_RELEASES` (line 43). -/
def github_releases : String := "https://github.com/yt-dlp/yt-dlp/releases/latest/download/"

/-- `prism_ytdlp_download` (line 638).  `downloadOk` is the oracle for
"`curl` ran and `file_exists(target_path)` holds afterwards".  The spawned
`curl` invocation is recorded; on success the global path is updated. -/
def prism_ytdlp_download (home : Option String) (downloadOk : Bool)
    (install_dir : Option String) (cfg : GConfig) : Bool × GConfig × List Spawn :=
  let target_dir :=
    match install_dir with
    | some d => if d != "" then d else default_install_dir home
    | none => default_install_dir home
  let target_path := target_dir ++ "/" ++ binary_name
  let url := github_releases ++ binary_name
  let curl_args := "-L -o \"" ++ target_path ++ "\" \"" ++ url ++ "\""
  let sp : List Spawn := [⟨"curl", curl_args⟩]
  if downloadOk then
    (true, { cfg with ytdlp_path := target_path }, sp)
  else
    (false, cfg, sp)

/-! ## Availability gate (`ensure_ytdlp_available`, line 734) -/

/-- Result of one `ensure_ytdlp_available` call: success flag, updated
global state, whether a download was attempted by this call, and the
subprocesses spawned by this call. -/
structure EnsureOut where
  ok : Bool
  cfg : GConfig
  attempted : Bool
  spawned : List Spawn
deriving Repr

/-- `ensure_ytdlp_available` (line 734). -/
def ensure_ytdlp_available (fs : String → Bool) (pathDirs : List String)
    (home : Option String) (downloadOk : Bool) (cfg : GConfig) : EnsureOut :=
  let av := prism_ytdlp_is_available fs pathDirs home cfg
  if av.1 then
    ⟨true, av.2, false, []⟩
  else if !av.2.auto_download || av.2.download_attempted then
    ⟨false, av.2, false, []⟩
  else
    let cfg2 := { av.2 with download_attempted := true }
    let dl := prism_ytdlp_download home downloadOk none cfg2
    ⟨dl.1, dl.2.1, true, dl.2.2⟩

/-- A sequence of `ensure_ytdlp_available` calls (one per element of
`oks`, giving each call's download-success oracle), returning the final
state and the total number of download attempts made. -/
def ensure_seq (fs : String → Bool) (pathDirs : List String) (home : Option String) :
    List Bool → GConfig → GConfig × Nat
  | [], cfg => (cfg, 0)
  | ok :: rest, cfg =>
    let e := ensure_ytdlp_available fs pathDirs home ok cfg
    let r := ensure_seq fs pathDirs home rest e.cfg
    (r.1, (if e.attempted then 1 else 0) + r.2)

/-! ## Format selection (`ytdlp_resolve`, lines 828-847) -/

/-- Modelled from the spec: the `PrismStreamQuality` enum is declared in
the external header `prism/prism_resolver.h`, which is not part of this
repository.  Per the spec, named quality tiers map to fixed heights
(low 360, medium 480, high 720, full 1080, qhd 1440, 4k 2160) and numeric
quality values pass through directly when in `(0, 4320]`; anything else
(including `auto`) leaves the height unconstrained at 0.  This matches the
`switch` at lines 798-811 given enum values equal to those heights. -/
def quality_to_height (q : Int) : Int :=
  if 0 < q && q ≤ 4320 then q else 0

/-- The `format_arg` string built at lines 829-847, as a function of the
requested height and the live flag. -/
def format_arg (height : Int) (is_live : Bool) : String :=
  if is_live then
    if 0 < height then
      "best[height<=" ++ toString height ++ "][protocol!=m3u8]/best[height<=" ++
        toString height ++ "][protocol!=m3u8_native]/best[height<=" ++ toString height ++ "]"
    else
      "best[protocol!=m3u8]/best[protocol!=m3u8_native]/best"
  else
    if 0 < height then
      "bestvideo[height<=" ++ toString height ++ "][ext=mp4][protocol!=m3u8]+bestaudio[ext=m4a]/best[height<=" ++
        toString height ++ "][ext=mp4][protocol!=m3u8]/best[height<=" ++ toString height ++
        "][ext=mp4]/best[ext=mp4]/best"
    else
      "bestvideo[ext=mp4][protocol!=m3u8]+bestaudio[ext=m4a]/best[ext=mp4][protocol!=m3u8]/best[ext=mp4]/best"

/-- The format fallback chain: the `/`-separated alternatives of
`format_arg` (the selector syntax joins the chain with `/`). -/
def format_chain (height : Int) (is_live : Bool) : List String :=
  split_tokens (fun c => c == '/') (format_arg height is_live).data []

/-! ## Argument strings built by `snprintf` in resolve/probe -/

/-- Live-check arguments (line 815). -/
def live_args (u : String) : String :=
  "--no-warnings --no-check-certificate --print is_live \"" ++ u ++ "\""

/-- URL-extraction arguments (line 850). -/
def geturl_args (fmt u : String) : String :=
  "--no-warnings --no-check-certificate -f \"" ++ fmt ++ "\" --get-url \"" ++ u ++ "\""

/-- Metadata-enrichment arguments (line 879). -/
def info_args (u : String) : String :=
  "--no-warnings --no-check-certificate --print title --print width --print height \"" ++ u ++ "\""

/-- Probe arguments (line 991). -/
def probe_args (u : String) : String :=
  "--no-warnings --no-check-certificate --print title --print is_live --print duration \"" ++ u ++ "\""

/-! ## Resolve (`ytdlp_resolve`, line 766) -/

/-- All external outcomes one `ytdlp_resolve`/`ytdlp_probe` call can
observe: the filesystem, `PATH` directories, `HOME`, the auto-download
outcome, and the `ProcessResult` each of the (up to three) tool
invocations would produce if performed. -/
structure ResolveEnv where
  fs : String → Bool
  pathDirs : List String
  home : Option String
  downloadOk : Bool
  liveRes : ProcessResult
  urlRes : ProcessResult
  infoRes : ProcessResult
  probeRes : ProcessResult

/-- Live classification (lines 818-823): `is_live` is set iff the
captured stdout exists and its trimmed, lower-cased content equals
"true".  The exit code is not consulted. -/
def classify_live (r : ProcessResult) : Bool :=
  match r.output with
  | none => false
  | some o => str_to_lower (str_trim o) == "true"

/-- Metadata parsing (lines 885-906): split stdout on CR/LF via
`strtok_r` and fill title, width, height from the first three tokens. -/
def with_info (r : ProcessResult) (st : PrismResolvedStream) : PrismResolvedStream :=
  match r.output with
  | none => st
  | some o =>
    let toks := tokenize_lines o
    { st with
      title := match toks.get? 0 with | some l => some (str_trim l) | none => st.title,
      width := match toks.get? 1 with | some l => atoi (str_trim l) | none => st.width,
      height := match toks.get? 2 with | some l => atoi (str_trim l) | none => st.height }

/-- The body of `ytdlp_resolve` after the availability gate has passed
(lines 790-913): live check, format negotiation, URL extraction,
metadata enrichment.  Returns the stream and the tool invocations made. -/
def resolve_with_tool (env : ResolveEnv) (cfg : GConfig) (u : String) (quality : Int) :
    PrismResolvedStream × List Spawn :=
  let height := quality_to_height quality
  let is_live := classify_live env.liveRes
  let fmt := format_arg height is_live
  let sp0 : List Spawn :=
    [⟨cfg.ytdlp_path, live_args u⟩, ⟨cfg.ytdlp_path, geturl_args fmt u⟩]
  let base : PrismResolvedStream :=
    { original_url := some u, requested_quality := quality, is_live := is_live }
  match env.urlRes.output with
  | none =>
    ({ base with success := false,
                 error := some ((env.urlRes.error).getD "Failed to resolve URL") }, sp0)
  | some out =>
    if env.urlRes.exit_code != 0 || out == "" then
      ({ base with success := false,
                   error := some ((env.urlRes.error).getD "Failed to resolve URL") }, sp0)
    else
      let direct := str_trim out
      let st :=
        { base with
          direct_url := some direct,
          is_hls := str_contains direct ".m3u8" || str_contains direct "m3u8" }
      (with_info env.infoRes
        { st with success := true, has_video := true, has_audio := true },
        sp0 ++ [⟨cfg.ytdlp_path, info_args u⟩])

/-- `ytdlp_resolve` (line 766).  `url = none` models a NULL pointer.
Returns the stream, the final global state, and every subprocess spawned
(download attempts included), in order. -/
def ytdlp_resolve (env : ResolveEnv) (cfg : GConfig) (url : Option String) (quality : Int) :
    PrismResolvedStream × GConfig × List Spawn :=
  match url with
  | none => ({ success := false, error := some "URL is NULL" }, cfg, [])
  | some u =>
    let e := ensure_ytdlp_available env.fs env.pathDirs env.home env.downloadOk cfg
    if e.ok then
      let r := resolve_with_tool env e.cfg u quality
      (r.1, e.cfg, e.spawned ++ r.2)
    else
      ({ original_url := some u, success := false, error := some "yt-dlp not available" },
        e.cfg, e.spawned)

/-! ## Probe (`ytdlp_probe`, line 969) -/

/-- Probe output parsing (lines 1004-1027): title and is_live from the
first two CR/LF tokens.  (The third token feeds `atof` into the unmodelled
floating-point `duration` field.) -/
def probe_parse (r : ProcessResult) (st : PrismResolvedStream) : PrismResolvedStream :=
  match r.output with
  | none => st
  | some o =>
    let toks := tokenize_lines o
    { st with
      title := match toks.get? 0 with | some l => some (str_trim l) | none => st.title,
      is_live := match toks.get? 1 with
                 | some l => str_to_lower (str_trim l) == "true"
                 | none => st.is_live }

/-- `ytdlp_probe` (line 969): a single invocation, no format negotiation,
no URL extraction. -/
def ytdlp_probe (env : ResolveEnv) (cfg : GConfig) (url : Option String) :
    PrismResolvedStream × GConfig × List Spawn :=
  match url with
  | none => ({ success := false, error := some "URL is NULL" }, cfg, [])
  | some u =>
    let e := ensure_ytdlp_available env.fs env.pathDirs env.home env.downloadOk cfg
    if e.ok then
      let sp := e.spawned ++ [⟨e.cfg.ytdlp_path, probe_args u⟩]
      if env.probeRes.exit_code != 0 then
        ({ original_url := some u, success := false,
           error := some ((env.probeRes.error).getD "Probe failed") }, e.cfg, sp)
      else
        ({ probe_parse env.probeRes { original_url := some u } with success := true },
          e.cfg, sp)
    else
      ({ original_url := some u, success := false, error := some "yt-dlp not available" },
        e.cfg, e.spawned)

/-! ## Vtable `is_available` (`ytdlp_is_available`, line 1068) -/

/-- `ytdlp_is_available` (line 1068): available, or auto-download still
allowed to try. -/
def ytdlp_is_available (fs : String → Bool) (pathDirs : List String)
    (home : Option String) (cfg : GConfig) : Bool :=
  (prism_ytdlp_is_available fs pathDirs home cfg).1 || cfg.auto_download

/-! ## Child-side argument tokenization (`run_process`, POSIX, lines 351-371) -/

/-- `strtok(args, " ")`: the maximal nonempty runs of non-space
characters. -/
def strtok_spaces (s : String) : List String :=
  split_tokens (fun c => c == ' ') s.data []

/-- The per-token quote handling at lines 362-366: a token starting with
`"` loses that quote and is truncated at the next `"` if one exists. -/
def unquote_token (t : String) : String :=
  match t.data with
  | '"' :: rest => String.mk (rest.takeWhile (fun c => c ≠ '"'))
  | _ => t

/-- The `argv` array the child builds at lines 351-371 before `execvp`:
the command, then the space-retokenized, unquoted tokens of the single
argument string (at most 61, per the `argc < 62` bound). -/
def child_argv (command : String) (args : String) : List String :=
  command :: ((strtok_spaces args).take 61).map unquote_token

/-! ## Concrete scenarios used by counterexamples and witnesses -/

/-- The "direct_url is non-empty" predicate of the spec invariant: the
field is set and not the empty string (`calloc` leaves it NULL). -/
def nonempty_direct_url (st : PrismResolvedStream) : Bool :=
  match st.direct_url with
  | none => false
  | some s => s != ""

/-- A filesystem on which every path exists. -/
def fs_all : String → Bool := fun _ => true

/-- A filesystem on which no path exists (tool absent everywhere). -/
def fs_none : String → Bool := fun _ => false

/-- A configuration with the tool path already set. -/
def cfg_tool : GConfig := { ytdlp_path := "/usr/bin/yt-dlp" }

/-- The default configuration with auto-download disabled. -/
def cfg_noauto : GConfig := { auto_download := false }

/-- Scenario: every tool invocation succeeds with well-formed output. -/
def env_happy : ResolveEnv :=
  { fs := fs_all, pathDirs := [], home := none, downloadOk := false,
    liveRes := ⟨some "False\n", none, 0⟩,
    urlRes := ⟨some "https://cdn.example/video.mp4\n", none, 0⟩,
    infoRes := ⟨some "Test Video\n1280\n720\n", none, 0⟩,
    probeRes := ⟨some "Test Video\nfalse\n33\n", none, 0⟩ }

/-- Scenario: the live check exits non-zero yet prints `True`. -/
def env_live_badexit : ResolveEnv :=
  { env_happy with liveRes := ⟨some "True\n", none, 1⟩ }

/-- Scenario: the resolved direct URL contains `m3u8` but not `.m3u8`. -/
def env_m3u8_nodot : ResolveEnv :=
  { env_happy with urlRes := ⟨some "https://cdn.example/stream?format=m3u8\n", none, 0⟩ }

/-- Scenario: the metadata invocation exits non-zero but prints a line. -/
def env_info_badexit : ResolveEnv :=
  { env_happy with infoRes := ⟨some "Oops\n", none, 1⟩ }

/-- Scenario: the metadata invocation yields no captured stdout at all
(spawn failure or timeout). -/
def env_info_dead : ResolveEnv :=
  { env_happy with infoRes := ⟨none, some "Process timed out", -1⟩ }

/-- Scenario: tool absent everywhere, downloads fail. -/
def env_absent : ResolveEnv :=
  { env_happy with fs := fs_none }

/-- The default (zero-configuration) global state. -/
def cfg_default : GConfig := {}

/-! ## Helper lemmas -/

/-- Metadata parsing never touches `success`. -/
theorem with_info_success (r : ProcessResult) (st : PrismResolvedStream) :
    (with_info r st).success = st.success := by
  unfold with_info
  cases r.output <;> rfl

/-- Metadata parsing never touches `direct_url`. -/
theorem with_info_direct_url (r : ProcessResult) (st : PrismResolvedStream) :
    (with_info r st).direct_url = st.direct_url := by
  unfold with_info
  cases r.output <;> rfl

/-- Metadata parsing never touches `is_live`. -/
theorem with_info_is_live (r : ProcessResult) (st : PrismResolvedStream) :
    (with_info r st).is_live = st.is_live := by
  unfold with_info
  cases r.output <;> rfl

/-- Metadata parsing never touches `is_hls`. -/
theorem with_info_is_hls (r : ProcessResult) (st : PrismResolvedStream) :
    (with_info r st).is_hls = st.is_hls := by
  unfold with_info
  cases r.output <;> rfl

/-- Without captured stdout (or with empty stdout) the metadata step
changes nothing. -/
theorem with_info_no_output (r : ProcessResult) (st : PrismResolvedStream)
    (h : r.output = none ∨ r.output = some "") :
    with_info r st = st := by
  unfold with_info
  rcases h with h | h <;> rw [h]
  rfl

/-- Live classification holds exactly when the stdout exists and its
trimmed, lower-cased content is `true`. -/
theorem classify_live_iff (r : ProcessResult) :
    classify_live r = true ↔
      ∃ o, r.output = some o ∧ str_to_lower (str_trim o) = "true" := by
  unfold classify_live
  cases r.output <;> simp

/-- A prefix occurrence is a containment occurrence. -/
theorem char_contains_of_starts (hs ns : List Char)
    (h : char_starts_with hs ns = true) : char_contains hs ns = true := by
  cases hs with
  | nil => exact h
  | cons c cs => unfold char_contains; simp [h]

/-- Dropping the first character of the needle preserves containment. -/
theorem char_contains_tail (hs : List Char) (c : Char) (ns : List Char)
    (h : char_contains hs (c :: ns) = true) : char_contains hs ns = true := by
  induction hs with
  | nil => simp [char_contains, char_starts_with] at h
  | cons a t ih =>
    unfold char_contains at h ⊢
    rcases Bool.or_eq_true_iff.mp h with hsw | hrec
    · unfold char_starts_with at hsw
      rcases Bool.and_eq_true_iff.mp hsw with ⟨_, hsw2⟩
      exact Bool.or_eq_true_iff.mpr (Or.inr (char_contains_of_starts t ns hsw2))
    · exact Bool.or_eq_true_iff.mpr (Or.inr (ih hrec))

/-- A string containing `.m3u8` contains `m3u8`. -/
theorem str_contains_m3u8_of_dot (s : String)
    (h : str_contains s ".m3u8" = true) : str_contains s "m3u8" = true := by
  unfold str_contains at h ⊢
  exact char_contains_tail s.data '.' ("m3u8").data h

/-- The resolver's `is_hls` disjunction collapses to the bare `m3u8`
containment check. -/
theorem is_hls_collapse (s : String) :
    (str_contains s ".m3u8" || str_contains s "m3u8") = str_contains s "m3u8" := by
  cases hd : str_contains s ".m3u8"
  · simp
  · simp [str_contains_m3u8_of_dot s hd]

/-- When URL extraction yields usable output, `resolve_with_tool` builds
the successful stream and performs all three invocations. -/
theorem resolve_with_tool_success_eq (env : ResolveEnv) (cfg : GConfig) (u : String)
    (q : Int) (out : String) (hout : env.urlRes.output = some out)
    (hexit : env.urlRes.exit_code = 0) (hne : out ≠ "") :
    resolve_with_tool env cfg u q =
      (with_info env.infoRes
        { original_url := some u, requested_quality := q,
          is_live := classify_live env.liveRes,
          direct_url := some (str_trim out),
          is_hls := str_contains (str_trim out) ".m3u8" || str_contains (str_trim out) "m3u8",
          success := true, has_video := true, has_audio := true },
       [⟨cfg.ytdlp_path, live_args u⟩,
        ⟨cfg.ytdlp_path,
          geturl_args (format_arg (quality_to_height q) (classify_live env.liveRes)) u⟩,
        ⟨cfg.ytdlp_path, info_args u⟩]) := by
  unfold resolve_with_tool
  rw [hout]
  dsimp only
  rw [if_neg]
  · rfl
  · simp [hexit, hne]

/-- When URL extraction fails (no output, non-zero exit, or empty
output), `resolve_with_tool` builds the failed stream after exactly the
two first invocations. -/
theorem resolve_with_tool_fail_eq (env : ResolveEnv) (cfg : GConfig) (u : String) (q : Int)
    (h : env.urlRes.output = none ∨ env.urlRes.exit_code ≠ 0 ∨ env.urlRes.output = some "") :
    resolve_with_tool env cfg u q =
      ({ original_url := some u, requested_quality := q,
         is_live := classify_live env.liveRes,
         success := false,
         error := some ((env.urlRes.error).getD "Failed to resolve URL") },
       [⟨cfg.ytdlp_path, live_args u⟩,
        ⟨cfg.ytdlp_path,
          geturl_args (format_arg (quality_to_height q) (classify_live env.liveRes)) u⟩]) := by
  unfold resolve_with_tool
  cases hout : env.urlRes.output with
  | none => rfl
  | some out =>
    dsimp only
    rcases h with h | h | h
    · rw [hout] at h; exact Option.noConfusion h
    · rw [if_pos (by simp [h])]
    · rw [hout] at h
      have he : out = "" := by injection h
      rw [if_pos (by simp [he])]

/-- `is_live` of the post-gate resolve is always the live classification
of the first invocation's result. -/
theorem resolve_with_tool_is_live (env : ResolveEnv) (cfg : GConfig) (u : String) (q : Int) :
    (resolve_with_tool env cfg u q).1.is_live = classify_live env.liveRes := by
  cases hout : env.urlRes.output with
  | none => rw [resolve_with_tool_fail_eq env cfg u q (Or.inl hout)]
  | some out =>
    by_cases hexit : env.urlRes.exit_code = 0
    · by_cases hne : out = ""
      · rw [resolve_with_tool_fail_eq env cfg u q (Or.inr (Or.inr (hne ▸ hout)))]
      · rw [resolve_with_tool_success_eq env cfg u q out hout hexit hne, with_info_is_live]
    · rw [resolve_with_tool_fail_eq env cfg u q (Or.inr (Or.inl hexit))]

/-- The post-gate resolve always performs at least the live-check and the
URL-extraction invocations, whatever the live check returned. -/
theorem resolve_with_tool_spawn_length (env : ResolveEnv) (cfg : GConfig) (u : String)
    (q : Int) : 2 ≤ (resolve_with_tool env cfg u q).2.length := by
  cases hout : env.urlRes.output with
  | none => rw [resolve_with_tool_fail_eq env cfg u q (Or.inl hout)]; simp
  | some out =>
    by_cases hexit : env.urlRes.exit_code = 0
    · by_cases hne : out = ""
      · rw [resolve_with_tool_fail_eq env cfg u q (Or.inr (Or.inr (hne ▸ hout)))]; simp
      · rw [resolve_with_tool_success_eq env cfg u q out hout hexit hne]; simp
    · rw [resolve_with_tool_fail_eq env cfg u q (Or.inr (Or.inl hexit))]; simp

/-- Unfolding `ytdlp_resolve` when the availability gate fails. -/
theorem ytdlp_resolve_unavailable (env : ResolveEnv) (cfg : GConfig) (u : String) (q : Int)
    (h : (ensure_ytdlp_available env.fs env.pathDirs env.home env.downloadOk cfg).ok = false) :
    ytdlp_resolve env cfg (some u) q =
      ({ original_url := some u, success := false, error := some "yt-dlp not available" },
       (ensure_ytdlp_available env.fs env.pathDirs env.home env.downloadOk cfg).cfg,
       (ensure_ytdlp_available env.fs env.pathDirs env.home env.downloadOk cfg).spawned) := by
  unfold ytdlp_resolve
  dsimp only
  rw [if_neg]
  simp [h]

/-- Unfolding `ytdlp_resolve` when the availability gate passes. -/
theorem ytdlp_resolve_available (env : ResolveEnv) (cfg : GConfig) (u : String) (q : Int)
    (h : (ensure_ytdlp_available env.fs env.pathDirs env.home env.downloadOk cfg).ok = true) :
    ytdlp_resolve env cfg (some u) q =
      ((resolve_with_tool env
          (ensure_ytdlp_available env.fs env.pathDirs env.home env.downloadOk cfg).cfg u q).1,
       (ensure_ytdlp_available env.fs env.pathDirs env.home env.downloadOk cfg).cfg,
       (ensure_ytdlp_available env.fs env.pathDirs env.home env.downloadOk cfg).spawned ++
         (resolve_with_tool env
           (ensure_ytdlp_available env.fs env.pathDirs env.home env.downloadOk cfg).cfg u q).2) := by
  unfold ytdlp_resolve
  dsimp only
  rw [if_pos h]

/-- With the tool absent everywhere, `find_ytdlp` finds nothing. -/
theorem find_ytdlp_absent (fs : String → Bool) (pd : List String) (home : Option String)
    (cfg : GConfig) (habs : ∀ p, fs p = false) :
    find_ytdlp fs pd home cfg = none := by
  unfold find_ytdlp
  have h1 : List.find? fs system_candidates = none :=
    List.find?_eq_none.mpr (fun x _ => by simp [habs])
  have h2 : List.find? fs (pd.map (fun d => d ++ "/" ++ binary_name)) = none :=
    List.find?_eq_none.mpr (fun x _ => by simp [habs])
  simp [habs, h1, h2]

/-- With the tool absent everywhere, `prism_ytdlp_is_available` reports
false and leaves the configuration unchanged. -/
theorem prism_avail_absent (fs : String → Bool) (pd : List String) (home : Option String)
    (cfg : GConfig) (habs : ∀ p, fs p = false) :
    prism_ytdlp_is_available fs pd home cfg = (false, cfg) := by
  unfold prism_ytdlp_is_available
  rw [find_ytdlp_absent fs pd home cfg habs]
  split
  · simp [habs]
  · rfl

/-- With the tool absent and the sticky flag already set, the gate fails
without attempting anything. -/
theorem ensure_absent_attempted (fs : String → Bool) (pd : List String)
    (home : Option String) (dl : Bool) (cfg : GConfig) (habs : ∀ p, fs p = false)
    (hatt : cfg.download_attempted = true) :
    ensure_ytdlp_available fs pd home dl cfg = ⟨false, cfg, false, []⟩ := by
  unfold ensure_ytdlp_available
  rw [prism_avail_absent fs pd home cfg habs]
  simp [hatt]

/-- With the tool absent and auto-download disabled, the gate fails
without attempting anything. -/
theorem ensure_absent_noauto (fs : String → Bool) (pd : List String)
    (home : Option String) (dl : Bool) (cfg : GConfig) (habs : ∀ p, fs p = false)
    (hauto : cfg.auto_download = false) :
    ensure_ytdlp_available fs pd home dl cfg = ⟨false, cfg, false, []⟩ := by
  unfold ensure_ytdlp_available
  rw [prism_avail_absent fs pd home cfg habs]
  simp [hauto]

/-- With the tool absent, auto-download enabled and the flag clear, the
gate attempts a download and sticks the flag. -/
theorem ensure_absent_first (fs : String → Bool) (pd : List String) (home : Option String)
    (dl : Bool) (cfg : GConfig) (habs : ∀ p, fs p = false)
    (hauto : cfg.auto_download = true) (hatt : cfg.download_attempted = false) :
    (ensure_ytdlp_available fs pd home dl cfg).attempted = true ∧
    (ensure_ytdlp_available fs pd home dl cfg).cfg.download_attempted = true := by
  unfold ensure_ytdlp_available
  rw [prism_avail_absent fs pd home cfg habs]
  unfold prism_ytdlp_download
  cases dl <;> simp [hauto, hatt]

/-- With the tool absent and the flag already set, no sequence of calls
attempts any download. -/
theorem ensure_seq_attempted_zero (fs : String → Bool) (pd : List String)
    (home : Option String) (oks : List Bool) (cfg : GConfig) (habs : ∀ p, fs p = false)
    (hatt : cfg.download_attempted = true) :
    (ensure_seq fs pd home oks cfg).2 = 0 := by
  induction oks generalizing cfg with
  | nil => rfl
  | cons ok rest ih =>
    unfold ensure_seq
    rw [ensure_absent_attempted fs pd home ok cfg habs hatt]
    simpa using ih cfg hatt

/-! ## Claim C1 -/

/-- Claim C1, counterexample: `ytdlp_probe` returns a stream whose
`success` flag is true while `direct_url` is unset (probe never extracts
a URL), so "direct_url is non-empty iff success" fails for probe
results. -/
theorem c1_probe_success_with_empty_direct_url :
    (ytdlp_probe env_happy cfg_tool (some "https://youtu.be/x")).1.success = true ∧
    (ytdlp_probe env_happy cfg_tool (some "https://youtu.be/x")).1.direct_url = none ∧
    nonempty_direct_url (ytdlp_probe env_happy cfg_tool (some "https://youtu.be/x")).1
      = false := by
  decide

/-- Claim C1 (amended): for every stream returned by `ytdlp_resolve`,
`direct_url` is non-empty iff `success` is true, provided the
URL-extraction stdout does not trim to the empty string; `ytdlp_probe`
results are excluded (probe never sets `direct_url`, even on success). -/
theorem c1_resolve_direct_url_iff_success (env : ResolveEnv) (cfg : GConfig)
    (url : Option String) (q : Int)
    (h : ∀ s, env.urlRes.output = some s → str_trim s ≠ "") :
    nonempty_direct_url (ytdlp_resolve env cfg url q).1 =
      (ytdlp_resolve env cfg url q).1.success := by
  cases url with
  | none => rfl
  | some u =>
    cases hok : (ensure_ytdlp_available env.fs env.pathDirs env.home env.downloadOk cfg).ok with
    | false =>
      rw [ytdlp_resolve_unavailable env cfg u q hok]
      rfl
    | true =>
      rw [ytdlp_resolve_available env cfg u q hok]
      dsimp only
      cases hout : env.urlRes.output with
      | none =>
        rw [resolve_with_tool_fail_eq env _ u q (Or.inl hout)]
        rfl
      | some out =>
        by_cases hexit : env.urlRes.exit_code = 0
        · by_cases hne : out = ""
          · rw [resolve_with_tool_fail_eq env _ u q (Or.inr (Or.inr (hne ▸ hout)))]
            rfl
          · rw [resolve_with_tool_success_eq env _ u q out hout hexit hne]
            simp [nonempty_direct_url, with_info_direct_url, with_info_success, bne_iff_ne]
            exact h out hout
        · rw [resolve_with_tool_fail_eq env _ u q (Or.inr (Or.inl hexit))]
          rfl

/-- Claim C1, witness: the amended theorem at the happy-path scenario. -/
theorem c1_resolve_direct_url_iff_success_witness :
    (∀ s, env_happy.urlRes.output = some s → str_trim s ≠ "") ∧
    nonempty_direct_url (ytdlp_resolve env_happy cfg_tool (some "https://youtu.be/x") 720).1 =
      (ytdlp_resolve env_happy cfg_tool (some "https://youtu.be/x") 720).1.success := by
  have hw : ∀ s, env_happy.urlRes.output = some s → str_trim s ≠ "" := by
    intro s hs
    have h0 : some "https://cdn.example/video.mp4\n" = some s := hs
    injection h0 with h1
    subst h1
    decide
  exact ⟨hw, c1_resolve_direct_url_iff_success env_happy cfg_tool
    (some "https://youtu.be/x") 720 hw⟩

/-! ## Claim C2 -/

/-- Claim C2 (confirmed): with the tool locatable nowhere and
auto-download disabled, `ytdlp_resolve` fails with an empty `direct_url`
and an error mentioning unavailability, and spawns no subprocess at
all. -/
theorem c2_unavailable_no_spawn (env : ResolveEnv) (cfg : GConfig) (u : String) (q : Int)
    (habs : ∀ p, env.fs p = false) (hauto : cfg.auto_download = false) :
    (ytdlp_resolve env cfg (some u) q).1.success = false ∧
    (ytdlp_resolve env cfg (some u) q).1.direct_url = none ∧
    (∃ m, (ytdlp_resolve env cfg (some u) q).1.error = some m ∧
      str_contains m "not available" = true) ∧
    (ytdlp_resolve env cfg (some u) q).2.2 = [] := by
  have he := ensure_absent_noauto env.fs env.pathDirs env.home env.downloadOk cfg habs hauto
  rw [ytdlp_resolve_unavailable env cfg u q (by rw [he])]
  rw [he]
  exact ⟨rfl, rfl, ⟨"yt-dlp not available", rfl, by decide⟩, rfl⟩

/-- Claim C2, witness: the theorem at a concrete empty filesystem with
auto-download off. -/
theorem c2_unavailable_no_spawn_witness :
    (∀ p, env_absent.fs p = false) ∧ cfg_noauto.auto_download = false ∧
    ((ytdlp_resolve env_absent cfg_noauto (some "https://youtu.be/x") 0).1.success = false ∧
     (ytdlp_resolve env_absent cfg_noauto (some "https://youtu.be/x") 0).1.direct_url = none ∧
     (∃ m, (ytdlp_resolve env_absent cfg_noauto (some "https://youtu.be/x") 0).1.error = some m ∧
       str_contains m "not available" = true) ∧
     (ytdlp_resolve env_absent cfg_noauto (some "https://youtu.be/x") 0).2.2 = []) :=
  ⟨fun _ => rfl, rfl,
   c2_unavailable_no_spawn env_absent cfg_noauto "https://youtu.be/x" 0 (fun _ => rfl) rfl⟩

/-! ## Claim C3 -/

/-- Claim C3 (code bug): the POSIX `run_process` child re-tokenizes the
single space-joined argument string with `strtok(.., " ")`, so a quoted
argument containing a space is split across several `argv` entries
instead of reaching the child intact; evaluated here at the failing
input `--print "a b"`. -/
theorem c3_child_args_retokenized :
    child_argv "yt-dlp" "--print \"a b\"" = ["yt-dlp", "--print", "a", "b\""] ∧
    "a b" ∉ child_argv "yt-dlp" "--print \"a b\"" := by
  decide

/-! ## Claim C4 -/

/-- Claim C4, counterexample: a live-check invocation with exit code 1
whose stdout is `True` still marks the stream live — the exit code is
never consulted, refuting "any invocation with non-zero exit code is
treated as not live". -/
theorem c4_live_despite_nonzero_exit :
    env_live_badexit.liveRes.exit_code = 1 ∧
    (ytdlp_resolve env_live_badexit cfg_tool (some "https://youtu.be/x") 0).1.is_live
      = true := by
  decide

/-- Claim C4 (amended): once the availability gate passes, the stream is
marked live exactly when the live-check stdout exists and its trimmed
content matches "true" case-insensitively — the exit code is ignored, so
missing or empty output (but not a non-zero exit with output "true")
yields not-live; and the failure never aborts resolution: the
URL-extraction invocation is always performed as well. -/
theorem c4_live_classification (env : ResolveEnv) (cfg : GConfig) (u : String) (q : Int)
    (hok : (ensure_ytdlp_available env.fs env.pathDirs env.home env.downloadOk cfg).ok = true) :
    ((ytdlp_resolve env cfg (some u) q).1.is_live = true ↔
      ∃ o, env.liveRes.output = some o ∧ str_to_lower (str_trim o) = "true") ∧
    (ensure_ytdlp_available env.fs env.pathDirs env.home env.downloadOk cfg).spawned.length + 2 ≤
      (ytdlp_resolve env cfg (some u) q).2.2.length := by
  rw [ytdlp_resolve_available env cfg u q hok]
  dsimp only
  constructor
  · rw [resolve_with_tool_is_live]
    exact classify_live_iff env.liveRes
  · rw [List.length_append]
    have h2 := resolve_with_tool_spawn_length env
      (ensure_ytdlp_available env.fs env.pathDirs env.home env.downloadOk cfg).cfg u q
    omega

/-- Claim C4, witness: the amended theorem at the happy-path scenario
(live check printed `False`, so the stream is not live). -/
theorem c4_live_classification_witness :
    ((ensure_ytdlp_available env_happy.fs env_happy.pathDirs env_happy.home
        env_happy.downloadOk cfg_tool).ok = true) ∧
    (((ytdlp_resolve env_happy cfg_tool (some "https://youtu.be/x") 0).1.is_live = true ↔
      ∃ o, env_happy.liveRes.output = some o ∧ str_to_lower (str_trim o) = "true") ∧
     (ensure_ytdlp_available env_happy.fs env_happy.pathDirs env_happy.home
        env_happy.downloadOk cfg_tool).spawned.length + 2 ≤
       (ytdlp_resolve env_happy cfg_tool (some "https://youtu.be/x") 0).2.2.length) :=
  ⟨rfl, c4_live_classification env_happy cfg_tool "https://youtu.be/x" 0 rfl⟩

/-! ## Claim C5 -/

/-- Claim C5 (confirmed): for height 720 and VOD the chain's first entry
carries the `[height<=720]` cap and its last entry is the unconstrained
`best`; for height 0 — live or VOD — no entry mentions a height
constraint at all. -/
theorem c5_format_chain_selection :
    (format_chain 720 false).head? =
      some "bestvideo[height<=720][ext=mp4][protocol!=m3u8]+bestaudio[ext=m4a]" ∧
    str_contains "bestvideo[height<=720][ext=mp4][protocol!=m3u8]+bestaudio[ext=m4a]"
      "[height<=720]" = true ∧
    (format_chain 720 false).getLast? = some "best" ∧
    (format_chain 0 false).all (fun e => !str_contains e "height") = true ∧
    (format_chain 0 true).all (fun e => !str_contains e "height") = true := by
  decide

/-! ## Claim C6 -/

/-- Claim C6, counterexample: a resolved URL containing `m3u8` without
the dot is still flagged HLS, refuting "is_hls iff direct_url contains
`.m3u8`". -/
theorem c6_is_hls_without_dot :
    (ytdlp_resolve env_m3u8_nodot cfg_tool (some "https://youtu.be/x") 0).1.is_hls = true ∧
    (ytdlp_resolve env_m3u8_nodot cfg_tool (some "https://youtu.be/x") 0).1.direct_url =
      some "https://cdn.example/stream?format=m3u8" ∧
    str_contains "https://cdn.example/stream?format=m3u8" ".m3u8" = false := by
  decide

/-- Claim C6 (amended): for every successful resolve result, `is_hls` is
true iff `direct_url` contains the substring `m3u8` (the dot is not
required: the code's `.m3u8` check is subsumed by its bare `m3u8`
check). -/
theorem c6_is_hls_iff_m3u8 (env : ResolveEnv) (cfg : GConfig) (url : Option String) (q : Int)
    (h : (ytdlp_resolve env cfg url q).1.success = true) :
    ∃ d, (ytdlp_resolve env cfg url q).1.direct_url = some d ∧
      (ytdlp_resolve env cfg url q).1.is_hls = str_contains d "m3u8" := by
  cases url with
  | none => simp [ytdlp_resolve] at h
  | some u =>
    cases hok : (ensure_ytdlp_available env.fs env.pathDirs env.home env.downloadOk cfg).ok with
    | false =>
      rw [ytdlp_resolve_unavailable env cfg u q hok] at h
      simp at h
    | true =>
      rw [ytdlp_resolve_available env cfg u q hok] at h ⊢
      dsimp only at h ⊢
      cases hout : env.urlRes.output with
      | none =>
        rw [resolve_with_tool_fail_eq env _ u q (Or.inl hout)] at h
        simp at h
      | some out =>
        by_cases hexit : env.urlRes.exit_code = 0
        · by_cases hne : out = ""
          · rw [resolve_with_tool_fail_eq env _ u q (Or.inr (Or.inr (hne ▸ hout)))] at h
            simp at h
          · rw [resolve_with_tool_success_eq env _ u q out hout hexit hne]
            refine ⟨str_trim out, ?_, ?_⟩
            · rw [with_info_direct_url]
            · rw [with_info_is_hls]
              exact is_hls_collapse (str_trim out)
        · rw [resolve_with_tool_fail_eq env _ u q (Or.inr (Or.inl hexit))] at h
          simp at h

/-- Claim C6, witness: the amended theorem at a scenario resolving to an
`.m3u8` manifest URL. -/
theorem c6_is_hls_iff_m3u8_witness :
    ((ytdlp_resolve env_happy cfg_tool (some "https://youtu.be/x") 0).1.success = true) ∧
    (∃ d, (ytdlp_resolve env_happy cfg_tool (some "https://youtu.be/x") 0).1.direct_url
        = some d ∧
      (ytdlp_resolve env_happy cfg_tool (some "https://youtu.be/x") 0).1.is_hls
        = str_contains d "m3u8") :=
  ⟨by decide, c6_is_hls_iff_m3u8 env_happy cfg_tool (some "https://youtu.be/x") 0 (by decide)⟩

/-! ## Claim C7 -/

/-- Claim C7 (confirmed): with the tool absent everywhere, auto-download
enabled, and the sticky flag clear, any non-empty sequence of
availability-gate calls performs exactly one download attempt; and once
`download_attempted` is set, no call attempts a download again. -/
theorem c7_single_download_attempt (fs : String → Bool) (pd : List String)
    (home : Option String) (oks : List Bool) (cfg : GConfig)
    (habs : ∀ p, fs p = false) (hauto : cfg.auto_download = true)
    (hatt : cfg.download_attempted = false) (hne : oks ≠ []) :
    (ensure_seq fs pd home oks cfg).2 = 1 ∧
    ∀ (cfg2 : GConfig) (ok : Bool), cfg2.download_attempted = true →
      (ensure_ytdlp_available fs pd home ok cfg2).attempted = false := by
  constructor
  · cases oks with
    | nil => exact absurd rfl hne
    | cons ok rest =>
      unfold ensure_seq
      obtain ⟨ha, hc⟩ := ensure_absent_first fs pd home ok cfg habs hauto hatt
      dsimp only
      rw [ha, ensure_seq_attempted_zero fs pd home rest _ habs hc]
      rfl
  · intro cfg2 ok h2
    rw [ensure_absent_attempted fs pd home ok cfg2 habs h2]

/-- Claim C7, witness: two consecutive gate calls with the tool absent
and downloads failing make exactly one attempt. -/
theorem c7_single_download_attempt_witness :
    (∀ p, fs_none p = false) ∧ cfg_default.auto_download = true ∧
    cfg_default.download_attempted = false ∧
    (ensure_seq fs_none [] none [false, false] cfg_default).2 = 1 :=
  ⟨fun _ => rfl, rfl, rfl,
   (c7_single_download_attempt fs_none [] none [false, false] cfg_default
     (fun _ => rfl) rfl rfl (by simp)).1⟩

/-! ## Claim C8 -/

/-- Claim C8, counterexample: an empty (non-null) URL is not rejected —
`ytdlp_resolve` proceeds past the null check, spawns tool invocations,
and here even succeeds, refuting "every null or empty URL yields a
failed result without spawning". -/
theorem c8_empty_url_not_rejected :
    (ytdlp_resolve env_happy cfg_tool (some "") 0).1.success = true ∧
    (ytdlp_resolve env_happy cfg_tool (some "") 0).1.error = none ∧
    (ytdlp_resolve env_happy cfg_tool (some "") 0).2.2 ≠ [] := by
  decide

/-- Claim C8 (amended): only a null URL is rejected: `ytdlp_resolve` and
`ytdlp_probe` on a null URL return `success = false` with the
invalid-parameter message "URL is NULL", an unset `direct_url`, and spawn
no subprocess; an empty string URL is not treated as invalid. -/
theorem c8_null_url_rejected (env : ResolveEnv) (cfg : GConfig) (q : Int) :
    (ytdlp_resolve env cfg none q).1.success = false ∧
    (ytdlp_resolve env cfg none q).1.direct_url = none ∧
    (ytdlp_resolve env cfg none q).1.error = some "URL is NULL" ∧
    (ytdlp_resolve env cfg none q).2.2 = [] ∧
    (ytdlp_probe env cfg none).1.success = false ∧
    (ytdlp_probe env cfg none).1.error = some "URL is NULL" ∧
    (ytdlp_probe env cfg none).2.2 = [] :=
  ⟨rfl, rfl, rfl, rfl, rfl, rfl, rfl⟩

/-! ## Claim C9 -/

/-- Claim C9, counterexample: a metadata invocation that exits non-zero
but prints a line does not leave the fields empty — its stdout is parsed
(title becomes `Oops`), refuting "the title, width and height fields are
left empty" for that failure mode. -/
theorem c9_metadata_parsed_despite_nonzero_exit :
    env_info_badexit.infoRes.exit_code = 1 ∧
    (ytdlp_resolve env_info_badexit cfg_tool (some "https://youtu.be/x") 0).1.success = true ∧
    (ytdlp_resolve env_info_badexit cfg_tool (some "https://youtu.be/x") 0).1.title
      = some "Oops" := by
  decide

/-- Claim C9 (amended): after a direct URL has been obtained, a
metadata-enrichment invocation that yields no stdout (spawn failure,
timeout, or empty output) is non-fatal: title, width and height stay
empty and the result still reports `success = true`.  (When stdout is
present its lines are parsed even on a non-zero exit.) -/
theorem c9_metadata_failure_nonfatal (env : ResolveEnv) (cfg : GConfig) (u : String)
    (q : Int) (out : String)
    (hok : (ensure_ytdlp_available env.fs env.pathDirs env.home env.downloadOk cfg).ok = true)
    (hout : env.urlRes.output = some out) (hexit : env.urlRes.exit_code = 0)
    (hne : out ≠ "") (hinfo : env.infoRes.output = none ∨ env.infoRes.output = some "") :
    (ytdlp_resolve env cfg (some u) q).1.success = true ∧
    (ytdlp_resolve env cfg (some u) q).1.title = none ∧
    (ytdlp_resolve env cfg (some u) q).1.width = 0 ∧
    (ytdlp_resolve env cfg (some u) q).1.height = 0 := by
  rw [ytdlp_resolve_available env cfg u q hok]
  dsimp only
  rw [resolve_with_tool_success_eq env _ u q out hout hexit hne]
  dsimp only
  rw [with_info_no_output env.infoRes _ hinfo]
  exact ⟨rfl, rfl, rfl, rfl⟩

/-- Claim C9, witness: the amended theorem at a scenario whose metadata
invocation timed out (no stdout captured). -/
theorem c9_metadata_failure_nonfatal_witness :
    (env_info_dead.infoRes.output = none ∨ env_info_dead.infoRes.output = some "") ∧
    ((ytdlp_resolve env_info_dead cfg_tool (some "https://youtu.be/x") 0).1.success = true ∧
     (ytdlp_resolve env_info_dead cfg_tool (some "https://youtu.be/x") 0).1.title = none ∧
     (ytdlp_resolve env_info_dead cfg_tool (some "https://youtu.be/x") 0).1.width = 0 ∧
     (ytdlp_resolve env_info_dead cfg_tool (some "https://youtu.be/x") 0).1.height = 0) :=
  ⟨Or.inl rfl,
   c9_metadata_failure_nonfatal env_info_dead cfg_tool "https://youtu.be/x" 0
     "https://cdn.example/video.mp4\n" rfl rfl rfl (by decide) (Or.inl rfl)⟩

/-! ## Claim C10 -/

/-- Claim C10 (confirmed): the vtable `is_available` entry returns true
whenever auto-download is enabled — regardless of whether any binary is
installed or locatable — and reports unavailability exactly when the
binary is absent and auto-download is disabled. -/
theorem c10_vtable_availability (fs : String → Bool) (pd : List String)
    (home : Option String) (cfg : GConfig) :
    (cfg.auto_download = true → ytdlp_is_available fs pd home cfg = true) ∧
    (ytdlp_is_available fs pd home cfg = false ↔
      ((prism_ytdlp_is_available fs pd home cfg).1 = false ∧ cfg.auto_download = false)) := by
  unfold ytdlp_is_available
  constructor
  · intro h
    rw [h]
    simp
  · simp

/-- Claim C10, witness: with no binary anywhere and default (enabled)
auto-download, `ytdlp_is_available` still reports true. -/
theorem c10_vtable_availability_witness :
    ytdlp_is_available fs_none [] none cfg_default = true :=
  (c10_vtable_availability fs_none [] none cfg_default).1 rfl

end Ytdlp
